import Mathlib

/-!
Verification development for the Auto-Pay webhook payment service.

The definitions below are a shallow embedding of the application code:

* `app/schemas/transaction.py` — payload schema validation (amount bounds,
  description sanitization),
* `app/core/exceptions.py` and `app/core/handlers.py` — the error taxonomy,
  its sanitized (`to_safe_dict`) renderings and the registered HTTP
  exception handlers,
* `app/services/payment_service.py` — idempotent webhook ingestion and
  retrieval over a uniqueness-constrained transaction store,
* `app/security.py` — HMAC-SHA256 webhook signature verification with
  replay protection (SHA-256 and HMAC are implemented concretely, following
  FIPS 180-4 / RFC 2104, which is what `hashlib` / `hmac` compute).

Python `bytes` values are modelled as `List Nat` (each element a byte value),
machine words as `Nat` reduced modulo `2 ^ 32`, `decimal.Decimal` values as an
integer mantissa together with a count of decimal places, and fallible
operations as `Except` / `Option` results.  Database effects are modelled
explicitly: the collection is a list of records, the unique index on `tx_id`
decides whether an insert succeeds, and driver-level failures are injected
through explicit outcome parameters, the way the unit tests of the repository
mock them.
-/

/-! ## Decimal amounts and schema validation (`app/schemas/transaction.py`) -/

/-- A `decimal.Decimal` value: `mant / 10 ^ places`.  `places` is the number
of digits after the decimal point as carried by the Python value, `mant` the
signed coefficient including those digits. -/
structure PyDecimal where
  mant : Int
  places : Nat
deriving DecidableEq

/-- Number of digits of the coefficient of a decimal (the length of its
`as_tuple()` digit tuple): digits of `|mant|`, with `0` having one digit. -/
def coeffDigits (d : PyDecimal) : Nat := (Nat.toDigits 10 d.mant.natAbs).length

/-- The `amount` field constraints of `WebhookPayload` / `TransactionCreate`:
`Field(..., gt=0, decimal_places=2, max_digits=15)`.  There is no upper bound
on the value itself in the source. -/
def webhookAmountOk (d : PyDecimal) : Bool :=
  decide (0 < d.mant) && decide (d.places ≤ 2) && decide (coeffDigits d ≤ 15)

/-- Modelled from the spec (section 3, `amount`): scale at most 2 and value in
the range `(0, 1_000_000]`.  `mant / 10 ^ places ≤ 1_000_000` is stated
integrally as `mant ≤ 1_000_000 * 10 ^ places`. -/
def specAmountOk (d : PyDecimal) : Bool :=
  decide (0 < d.mant) && decide (d.places ≤ 2) && decide (d.mant ≤ 1000000 * 10 ^ d.places)

/-- Python `str.strip()` with no argument: remove leading and trailing
whitespace. -/
def pyStrip (s : String) : String :=
  String.mk (((s.data.dropWhile Char.isWhitespace).reverse.dropWhile
    Char.isWhitespace).reverse)

/-- The characters removed by the regard of the regex character class in
`validate_description` (code points 60, 62, 34, 39): less-than, greater-than,
double quote and single quote. -/
def strippedChars : List Char := [Char.ofNat 60, Char.ofNat 62, Char.ofNat 34, Char.ofNat 39]

/-- `WebhookPayload.validate_description`: on a provided description, remove
the characters of `strippedChars`; if the result is empty after whitespace
stripping, store `None`; a missing description stays `None`. -/
def validateDescription (v : Option String) : Option String :=
  match v with
  | none => none
  | some s =>
    let s2 := String.mk (s.data.filter (fun c => !(strippedChars.contains c)))
    if (pyStrip s2).length = 0 then none else some s2

/-- Modelled from the spec (section 3, `description`): the same sanitization
but also stripping `;` (59) and `&` (38). -/
def specStrippedChars : List Char := strippedChars ++ [Char.ofNat 59, Char.ofNat 38]

/-- Modelled from the spec: description sanitization that strips all six
characters (code points 60, 62, 34, 39, 59, 38) and stores `None` when the result is empty. -/
def specSanitizeDescription (v : Option String) : Option String :=
  match v with
  | none => none
  | some s =>
    let s2 := String.mk (s.data.filter (fun c => !(specStrippedChars.contains c)))
    if (pyStrip s2).length = 0 then none else some s2

/-! ## Error taxonomy renderings (`app/core/exceptions.py`, `app/core/handlers.py`)

Client-facing renderings are modelled as association lists from field name to
an optional string value (`none` models JSON `null`). -/

/-- `SecurityError`: `message` plus the internal-only `security_context`. -/
structure SecurityE where
  message : String
  security_context : Option String
deriving DecidableEq

/-- The `details` string computed by `SecurityError.__init__`:
`f"Security failure in: {security_context}" if security_context else None`. -/
def securityDetails (e : SecurityE) : Option String :=
  match e.security_context with
  | none => none
  | some c => if c = "" then none else some ("Security failure in: " ++ c)

/-- `SecurityError.to_safe_dict`: only `error` and `message`. -/
def securityToSafeDict (e : SecurityE) : List (String × Option String) :=
  [("error", some "SecurityError"), ("message", some e.message)]

/-- The `detail` dict built by the registered handler
`security_exception_handler` in `app/core/handlers.py`: it includes the
internal-only `security_context` (as `context`) and `details`. -/
def securityHandlerDetail (e : SecurityE) : List (String × Option String) :=
  [("error", some "SecurityError"), ("message", some e.message),
   ("context", e.security_context), ("details", securityDetails e)]

/-- `DatabaseError`: `message` plus internal-only `operation` and raw driver
error text. -/
structure DatabaseE where
  message : String
  operation : Option String
  database_error : Option String
deriving DecidableEq

/-- The `details` string computed by `DatabaseError.__init__`. -/
def databaseDetails (e : DatabaseE) : Option String :=
  match e.operation with
  | none => none
  | some op => if op = "" then none else some ("Failed database operation: " ++ op)

/-- `DatabaseError.to_safe_dict`: a generic message only. -/
def databaseToSafeDict (_e : DatabaseE) : List (String × Option String) :=
  [("error", some "DatabaseError"),
   ("message", some "An internal error occurred. Please try again later.")]

/-- The `detail` dict built by the registered handler
`database_exception_handler`: it includes `operation` and `details`. -/
def databaseHandlerDetail (e : DatabaseE) : List (String × Option String) :=
  [("error", some "DatabaseError"), ("message", some "Internal database error"),
   ("operation", e.operation), ("details", databaseDetails e)]

/-- `ConfigurationError`: `message` plus internal-only `config_key` and
`expected_value`. -/
structure ConfigurationE where
  message : String
  config_key : Option String
  expected_value : Option String
deriving DecidableEq

/-- The `details` string computed by `ConfigurationError.__init__`. -/
def configurationDetails (e : ConfigurationE) : Option String :=
  match e.config_key with
  | none => none
  | some k => if k = "" then none else some ("Configuration error for: " ++ k)

/-- `ConfigurationError.to_safe_dict`: a generic message only. -/
def configurationToSafeDict (_e : ConfigurationE) : List (String × Option String) :=
  [("error", some "ConfigurationError"),
   ("message", some "A server configuration error occurred.")]

/-- `ConfigurationError` has no dedicated handler; it is rendered by
`base_app_exception_handler`, whose `detail` dict includes `details`. -/
def configurationHandlerDetail (e : ConfigurationE) : List (String × Option String) :=
  [("error", some "BaseAppError"), ("message", some "Internal application error"),
   ("details", configurationDetails e)]

/-! ## Payment service (`app/services/payment_service.py`, `app/models.py`) -/

/-- A persisted `Transaction` document (collection `transactions`, unique
index on `tx_id`).  The `float` conversion of the amount is modelled by the
decimal value itself; `timestamp` is the server-assigned creation time. -/
structure Txn where
  tx_id : String
  amount : PyDecimal
  currency : String
  sender_account : String
  receiver_account : String
  status : String
  description : Option String
  timestamp : Int
deriving DecidableEq

/-- A validated `WebhookPayload` as consumed by the service layer. -/
structure WebhookPayloadV where
  tx_id : String
  amount : PyDecimal
  currency : String
  sender_account : String
  receiver_account : String
  description : Option String
deriving DecidableEq

/-- A `PaymentValidationError` as raised by `_validate_payment_data`. -/
structure PaymentValidationErr where
  message : String
  field : String
deriving DecidableEq

/-- The domain errors `process_webhook` / `get_transaction_by_id` can raise. -/
inductive AppErr where
  | validation (e : PaymentValidationErr)
  | idempotency (tx_id : String)
  | database (message : String) (operation : String)
  | notFound (resource : String) (identifier : String)
deriving DecidableEq

/-- `PaymentService._validate_payment_data`: defensive business rules beyond
the schema; the first violated rule is raised as `PaymentValidationError`.
The Python test `not s or not s.strip()` is an emptiness-or-whitespace-only test. -/
def validatePaymentData (p : WebhookPayloadV) : Option PaymentValidationErr :=
  if p.tx_id = "" ∨ pyStrip p.tx_id = "" then
    some ⟨"Transaction ID cannot be empty", "tx_id"⟩
  else if p.amount.mant ≤ 0 then
    some ⟨"Transaction amount must be positive", "amount"⟩
  else if p.currency = "" ∨ pyStrip p.currency = "" then
    some ⟨"Currency cannot be empty", "currency"⟩
  else if p.sender_account = "" ∨ pyStrip p.sender_account = "" then
    some ⟨"Sender account cannot be empty", "sender_account"⟩
  else if p.receiver_account = "" ∨ pyStrip p.receiver_account = "" then
    some ⟨"Receiver account cannot be empty", "receiver_account"⟩
  else if p.sender_account = p.receiver_account then
    some ⟨"Sender and receiver accounts must be different", "accounts"⟩
  else
    none

/-- `Transaction.find_one({"tx_id": tx_id})` over the modelled collection. -/
def findOne (tx_id : String) (store : List Txn) : Option Txn :=
  store.find? (fun t => t.tx_id == tx_id)

/-- Outcome of `Transaction.insert()`: either the new collection state, or a
`DuplicateKeyError` from the unique index on `tx_id`. -/
inductive InsertOutcome where
  | inserted (store : List Txn)
  | duplicateKey
deriving DecidableEq

/-- `insert()` against the unique index: rejected iff a record with the same
`tx_id` is already present. -/
def insertTxn (t : Txn) (store : List Txn) : InsertOutcome :=
  if store.any (fun u => u.tx_id == t.tx_id) then .duplicateKey
  else .inserted (store ++ [t])

/-- The new `Transaction` record constructed by `process_webhook`
(`status="success"`, server-assigned creation time `createdAt`). -/
def newTransaction (p : WebhookPayloadV) (createdAt : Int) : Txn :=
  { tx_id := p.tx_id, amount := p.amount, currency := p.currency,
    sender_account := p.sender_account, receiver_account := p.receiver_account,
    status := "success", description := p.description, timestamp := createdAt }

/-- `PaymentResponse` (`app/schemas/responses.py`). -/
structure PaymentResponse where
  success : Bool
  message : String
  status : String
  tx_id : String
deriving DecidableEq

/-- The duplicate-path response of `process_webhook`. -/
def duplicateResponse (tx_id : String) : PaymentResponse :=
  { success := true, message := "Transaction was previously processed",
    status := "duplicate", tx_id := tx_id }

/-- The processed-path response of `process_webhook`. -/
def processedResponse (tx_id : String) : PaymentResponse :=
  { success := true, message := "Transaction stored successfully",
    status := "processed", tx_id := tx_id }

/-- `PaymentService.process_webhook`.  `store` is the collection state at the
lookup; `interposed` are records written by concurrent processes between the
lookup and the insert (empty in the sequential case) — the insert runs
against `store ++ interposed`, which is how the lookup-then-insert race
reaches the `DuplicateKeyError` branch.  Returns the service outcome and the
final collection state.  A `DuplicateKeyError` from the insert is raised as
`IdempotencyError(tx_id)` (re-raised as-is by the outer handler); other
driver failures, which the pure store model cannot produce, would be wrapped
as `DatabaseError`. -/
def processWebhook (p : WebhookPayloadV) (store interposed : List Txn)
    (createdAt : Int) : Except AppErr PaymentResponse × List Txn :=
  match validatePaymentData p with
  | some e => (.error (.validation e), store ++ interposed)
  | none =>
    match findOne p.tx_id store with
    | some _ => (.ok (duplicateResponse p.tx_id), store ++ interposed)
    | none =>
      match insertTxn (newTransaction p createdAt) (store ++ interposed) with
      | .inserted s2 => (.ok (processedResponse p.tx_id), s2)
      | .duplicateKey => (.error (.idempotency p.tx_id), store ++ interposed)

/-- `TransactionDetails` (`app/schemas/responses.py`): optional fields are
optional there. -/
structure TransactionDetails where
  tx_id : String
  amount : PyDecimal
  currency : String
  sender_account : Option String
  receiver_account : Option String
  status : Option String
  description : Option String
  timestamp : Option Int
deriving DecidableEq

/-- `TransactionResponse` (`app/schemas/responses.py`). -/
structure TransactionResponse where
  success : Bool
  message : String
  status : String
  transaction : TransactionDetails
deriving DecidableEq

/-- What `Transaction.find_one` did during retrieval: found a record, found
nothing, or failed at the driver level (the way the unit tests of the repository
inject `Exception` side effects into the mocked `find_one`). -/
inductive FindOutcome where
  | found (t : Txn)
  | absent
  | storeFailure
deriving DecidableEq

/-- The `TransactionDetails` built by `get_transaction_by_id` from a record:
every stored field is copied. -/
def detailsOf (t : Txn) : TransactionDetails :=
  { tx_id := t.tx_id, amount := t.amount, currency := t.currency,
    sender_account := some t.sender_account,
    receiver_account := some t.receiver_account,
    status := some t.status, description := t.description,
    timestamp := some t.timestamp }

/-- `PaymentService.get_transaction_by_id`: absence raises `NotFoundError`
(re-raised as-is), a driver failure is wrapped into
`DatabaseError("Failed to retrieve transaction", operation="find_transaction")`,
and a found record is returned with all stored fields. -/
def getTransactionById (tx_id : String) (r : FindOutcome) :
    Except AppErr TransactionResponse :=
  match r with
  | .found t =>
    .ok { success := true, message := "Transaction found successfully",
          status := "found", transaction := detailsOf t }
  | .absent => .error (.notFound "Transaction" tx_id)
  | .storeFailure => .error (.database "Failed to retrieve transaction" "find_transaction")

/-! ## SHA-256 and HMAC (`hashlib.sha256`, `hmac.new(...).hexdigest()`)

Words are `Nat` values reduced modulo `2 ^ 32`; the compression state is an
eight-word tuple. -/

/-- Reduce to a 32-bit word. -/
def toWord (x : Nat) : Nat := x % 4294967296

/-- 32-bit modular addition. -/
def wAdd (a b : Nat) : Nat := (a + b) % 4294967296

/-- Rotate a 32-bit word right by `n`. -/
def rotr32 (n x : Nat) : Nat := toWord (Nat.lor (x >>> n) (x <<< (32 - n)))

/-- SHA-256 `Ch`; complement is XOR against the 32-bit mask. -/
def ch32 (x y z : Nat) : Nat := (x &&& y) ^^^ ((x ^^^ 4294967295) &&& z)

/-- SHA-256 `Maj`. -/
def maj32 (x y z : Nat) : Nat := (x &&& y) ^^^ (x &&& z) ^^^ (y &&& z)

/-- SHA-256 Σ₀. -/
def bsig0 (x : Nat) : Nat := rotr32 2 x ^^^ rotr32 13 x ^^^ rotr32 22 x

/-- SHA-256 Σ₁. -/
def bsig1 (x : Nat) : Nat := rotr32 6 x ^^^ rotr32 11 x ^^^ rotr32 25 x

/-- SHA-256 σ₀. -/
def ssig0 (x : Nat) : Nat := rotr32 7 x ^^^ rotr32 18 x ^^^ (x >>> 3)

/-- SHA-256 σ₁. -/
def ssig1 (x : Nat) : Nat := rotr32 17 x ^^^ rotr32 19 x ^^^ (x >>> 10)

/-- The 64 SHA-256 round constants (fractional parts of the cube roots of the
first 64 primes, FIPS 180-4 4.2.2). -/
def shaK : List Nat :=
  [1116352408, 1899447441, 3049323471, 3921009573, 961987163, 1508970993,
   2453635748, 2870763221, 3624381080, 310598401, 607225278, 1426881987,
   1925078388, 2162078206, 2614888103, 3248222580, 3835390401, 4022224774,
   264347078, 604807628, 770255983, 1249150122, 1555081692, 1996064986,
   2554220882, 2821834349, 2952996808, 3210313671, 3336571891, 3584528711,
   113926993, 338241895, 666307205, 773529912, 1294757372, 1396182291,
   1695183700, 1986661051, 2177026350, 2456956037, 2730485921, 2820302411,
   3259730800, 3345764771, 3516065817, 3600352804, 4094571909, 275423344,
   430227734, 506948616, 659060556, 883997877, 958139571, 1322822218,
   1537002063, 1747873779, 1955562222, 2024104815, 2227730452, 2361852424,
   2428436474, 2756734187, 3204031479, 3329325298]

/-- The SHA-256 compression state: eight 32-bit words. -/
abbrev ShaState := Nat × Nat × Nat × Nat × Nat × Nat × Nat × Nat

/-- The SHA-256 initial hash value (fractional parts of the square roots of
the first 8 primes, FIPS 180-4 5.3.3). -/
def shaH0 : ShaState :=
  (1779033703, 3144134277, 1013904242, 2773480762,
   1359893119, 2600822924, 528734635, 1541459225)

/-- Big-endian 8-byte encoding of the message bit length. -/
def lenBytes64 (n : Nat) : List Nat :=
  [(n >>> 56) % 256, (n >>> 48) % 256, (n >>> 40) % 256, (n >>> 32) % 256,
   (n >>> 24) % 256, (n >>> 16) % 256, (n >>> 8) % 256, n % 256]

/-- SHA-256 padding: `0x80`, zero bytes to 56 mod 64, then the bit length. -/
def shaPad (msg : List Nat) : List Nat :=
  msg ++ [128] ++ List.replicate ((119 - msg.length % 64) % 64) 0 ++
    lenBytes64 (msg.length * 8)

/-- Split a byte list into 64-byte blocks (fuel-driven for structural
recursion; call with `fuel = l.length`). -/
def toBlocks : Nat → List Nat → List (List Nat)
  | 0, _ => []
  | _, [] => []
  | fuel + 1, l => l.take 64 :: toBlocks fuel (l.drop 64)

/-- Big-endian 4-byte groups to 32-bit words (fuel-driven). -/
def bytesToWords : Nat → List Nat → List Nat
  | fuel + 1, b0 :: b1 :: b2 :: b3 :: rest =>
    (b0 * 16777216 + b1 * 65536 + b2 * 256 + b3) :: bytesToWords fuel rest
  | _, _ => []

/-- Extend the 16-word block to the 64-word message schedule. -/
def extendSchedule : Nat → List Nat → List Nat
  | 0, w => w
  | fuel + 1, w =>
    if 64 ≤ w.length then w
    else
      extendSchedule fuel
        (w ++ [wAdd (wAdd (ssig1 (w.get! (w.length - 2))) (w.get! (w.length - 7)))
                 (wAdd (ssig0 (w.get! (w.length - 15))) (w.get! (w.length - 16)))])

/-- The 64 SHA-256 rounds, consuming the constants and the schedule. -/
def shaRounds : List Nat → List Nat → ShaState → ShaState
  | k :: ks, w :: ws, (a, b, c, d, e, f, g, h) =>
    let t1 := wAdd (wAdd (wAdd h (bsig1 e)) (wAdd (ch32 e f g) k)) w
    let t2 := wAdd (bsig0 a) (maj32 a b c)
    shaRounds ks ws (wAdd t1 t2, a, b, c, wAdd d t1, e, f, g)
  | _, _, st => st

/-- Add two compression states componentwise mod `2 ^ 32`. -/
def addState : ShaState → ShaState → ShaState
  | (a, b, c, d, e, f, g, h), (a2, b2, c2, d2, e2, f2, g2, h2) =>
    (wAdd a a2, wAdd b b2, wAdd c c2, wAdd d d2,
     wAdd e e2, wAdd f f2, wAdd g g2, wAdd h h2)

/-- One SHA-256 block compression. -/
def shaCompress (st : ShaState) (block : List Nat) : ShaState :=
  addState st (shaRounds shaK (extendSchedule 48 (bytesToWords block.length block)) st)

/-- Big-endian bytes of one 32-bit word. -/
def wordBytes (w : Nat) : List Nat :=
  [(w >>> 24) % 256, (w >>> 16) % 256, (w >>> 8) % 256, w % 256]

/-- The 32-byte digest of a final compression state. -/
def digestBytes : ShaState → List Nat
  | (a, b, c, d, e, f, g, h) => [a, b, c, d, e, f, g, h].flatMap wordBytes

/-- SHA-256 of a byte list. -/
def sha256 (msg : List Nat) : List Nat :=
  digestBytes ((toBlocks (shaPad msg).length (shaPad msg)).foldl shaCompress shaH0)

/-- Lowercase hex character of a value below 16. -/
def hexChar (n : Nat) : Char := if n < 10 then Char.ofNat (48 + n) else Char.ofNat (87 + n)

/-- Two lowercase hex characters per byte. -/
def hexChars (l : List Nat) : List Char :=
  l.flatMap (fun b => [hexChar (b / 16), hexChar (b % 16)])

/-- `hexdigest()`: the lowercase hex string of a byte list. -/
def bytesToHex (l : List Nat) : String := String.mk (hexChars l)

/-- UTF-8 encoding of one character (`str.encode()`). -/
def utf8Char (c : Char) : List Nat :=
  let n := c.toNat
  if n < 128 then [n]
  else if n < 2048 then [192 + n / 64, 128 + n % 64]
  else if n < 65536 then [224 + n / 4096, 128 + n / 64 % 64, 128 + n % 64]
  else [240 + n / 262144, 128 + n / 4096 % 64, 128 + n / 64 % 64, 128 + n % 64]

/-- `str.encode()`: UTF-8 bytes of a string. -/
def strBytes (s : String) : List Nat := s.data.flatMap utf8Char

/-- `hmac.new(key, msg, hashlib.sha256).digest()` (RFC 2104, block size 64):
hash an over-long key, zero-pad to the block size, then the nested hash with
the `0x5c`/`0x36` pads. -/
def hmacSha256 (key msg : List Nat) : List Nat :=
  let k0 := if 64 < key.length then sha256 key else key
  let k1 := k0 ++ List.replicate (64 - k0.length) 0
  sha256 ((k1.map (fun b => b ^^^ 92)) ++ sha256 ((k1.map (fun b => b ^^^ 54)) ++ msg))

/-! ## Signature verification (`app/security.py`) -/

/-- Helper for `int(x_timestamp)` on an optionally signed decimal literal.
(The Python `int` additionally tolerates surrounding whitespace and
underscore digit separators; no claim depends on those inputs.) -/
def parseDigitsAux : List Char → Nat → Option Nat
  | [], acc => some acc
  | c :: cs, acc =>
    if c.isDigit then parseDigitsAux cs (acc * 10 + (c.toNat - 48)) else none

/-- Parse an optionally signed, non-empty digit string to an integer. -/
def parsePyInt (s : String) : Option Int :=
  match s.data with
  | [] => none
  | c :: cs =>
    if c = '-' then
      match cs with
      | [] => none
      | _ => (parseDigitsAux cs 0).map (fun n => -(n : Int))
    else if c = '+' then
      match cs with
      | [] => none
      | _ => (parseDigitsAux cs 0).map (fun n => (n : Int))
    else (parseDigitsAux s.data 0).map (fun n => (n : Int))

/-- Signature normalization: strip an optional leading `sha256=`. -/
def normalizeSignature (s : String) : String :=
  if s.data.take 7 = "sha256=".data then String.mk (s.data.drop 7) else s

/-- The `expected_signature` of `verify_hmac_signature`: the lowercase hex
HMAC-SHA256 of `x_timestamp + "." + raw_body` under the secret. -/
def expectedSignature (secretKey ts : String) (body : List Nat) : String :=
  bytesToHex (hmacSha256 (strBytes secretKey) (strBytes (ts ++ ".") ++ body))

/-- `verify_hmac_signature`.  `secret` models `HMAC_SECRET` (`none` when the
environment variable is unset, `some ""` when set but empty — both falsy),
`xSignature` / `xTimestamp` the two optional headers, `body` the raw request
bytes, `now` the current Unix time and `maxAge` `MAX_WEBHOOK_AGE_SECONDS`
(default 300).  The timing-safe `hmac.compare_digest` is modelled as string
equality (the timing channel itself is outside a functional model). -/
def verifyHmacSignature (secret xSignature xTimestamp : Option String)
    (body : List Nat) (now maxAge : Int) : Except SecurityE Unit :=
  match secret with
  | none => .error ⟨"Webhook verification not configured", some "webhook_authentication"⟩
  | some secretKey =>
    if secretKey = "" then
      .error ⟨"Webhook verification not configured", some "webhook_authentication"⟩
    else match xSignature with
    | none => .error ⟨"Missing signature header", some "webhook_authentication"⟩
    | some sig =>
      if sig = "" then
        .error ⟨"Missing signature header", some "webhook_authentication"⟩
      else match xTimestamp with
      | none => .error ⟨"Missing timestamp header", some "webhook_authentication"⟩
      | some ts =>
        if ts = "" then
          .error ⟨"Missing timestamp header", some "webhook_authentication"⟩
        else match parsePyInt ts with
        | none => .error ⟨"Invalid timestamp format", some "webhook_authentication"⟩
        | some t =>
          if now + 5 < t then
            .error ⟨"Request timestamp is in the future", some "webhook_authentication"⟩
          else if maxAge < now - t then
            .error ⟨"Request timestamp expired", some "webhook_authentication"⟩
          else if expectedSignature secretKey ts body = normalizeSignature sig then
            .ok ()
          else
            .error ⟨"Invalid signature", some "webhook_authentication"⟩


/-- Decidable equality for service outcomes (used to evaluate concrete
runs). -/
instance : DecidableEq (Except AppErr PaymentResponse) :=
  fun a b =>
    match a, b with
    | .ok x, .ok y => decidable_of_iff (x = y) (by simp)
    | .error x, .error y => decidable_of_iff (x = y) (by simp)
    | .ok _, .error _ => .isFalse (fun h => Except.noConfusion h)
    | .error _, .ok _ => .isFalse (fun h => Except.noConfusion h)

/-- Decidable equality for retrieval outcomes. -/
instance : DecidableEq (Except AppErr TransactionResponse) :=
  fun a b =>
    match a, b with
    | .ok x, .ok y => decidable_of_iff (x = y) (by simp)
    | .error x, .error y => decidable_of_iff (x = y) (by simp)
    | .ok _, .error _ => .isFalse (fun h => Except.noConfusion h)
    | .error _, .ok _ => .isFalse (fun h => Except.noConfusion h)

/-! ## Helper lemmas: store behavior -/

theorem findOne_none_not_mem {txid : String} {store : List Txn}
    (h : findOne txid store = none) : ∀ u ∈ store, (u.tx_id == txid) = false := by
  intro u hu
  have := List.find?_eq_none.mp h u hu
  simpa using this

theorem insertTxn_of_absent {t : Txn} {store : List Txn}
    (h : ∀ u ∈ store, (u.tx_id == t.tx_id) = false) :
    insertTxn t store = .inserted (store ++ [t]) := by
  unfold insertTxn
  rw [if_neg]
  intro hany
  obtain ⟨u, hu, hbeq⟩ := List.any_eq_true.mp hany
  rw [h u hu] at hbeq
  exact Bool.false_ne_true hbeq

theorem insertTxn_duplicate {t : Txn} {store : List Txn} {u : Txn}
    (hu : u ∈ store) (heq : u.tx_id = t.tx_id) : insertTxn t store = .duplicateKey := by
  unfold insertTxn
  rw [if_pos]
  exact List.any_eq_true.mpr ⟨u, hu, by simp [heq]⟩

/-- C5 helper: the duplicate path of `process_webhook`. -/
theorem processWebhook_duplicate {p : WebhookPayloadV} {store : List Txn}
    {createdAt : Int} (hv : validatePaymentData p = none)
    (hfound : (findOne p.tx_id store).isSome) :
    processWebhook p store [] createdAt = (.ok (duplicateResponse p.tx_id), store) := by
  obtain ⟨t, ht⟩ := Option.isSome_iff_exists.mp hfound
  unfold processWebhook
  rw [hv, ht]
  simp

/-- C5 helper: the processed path of `process_webhook`. -/
theorem processWebhook_processed {p : WebhookPayloadV} {store : List Txn}
    {createdAt : Int} (hv : validatePaymentData p = none)
    (habsent : findOne p.tx_id store = none) :
    processWebhook p store [] createdAt =
      (.ok (processedResponse p.tx_id), store ++ [newTransaction p createdAt]) := by
  unfold processWebhook
  rw [hv, habsent, List.append_nil,
    @insertTxn_of_absent (newTransaction p createdAt) store (findOne_none_not_mem habsent)]

/-- Claim C5. For every payload passing the service-level validation: if a
record with its `tx_id` is already stored, `process_webhook` returns the
success response with status `"duplicate"` and that `tx_id` and leaves the
store unchanged; if no such record is stored, it returns the success response
with status `"processed"` and appends exactly the one new record, whose
status is `"success"`. -/
theorem c5_idempotent_ingestion (p : WebhookPayloadV) (store : List Txn) (createdAt : Int)
    (hv : validatePaymentData p = none) :
    ((findOne p.tx_id store).isSome →
      processWebhook p store [] createdAt = (.ok (duplicateResponse p.tx_id), store)) ∧
    (findOne p.tx_id store = none →
      processWebhook p store [] createdAt =
        (.ok (processedResponse p.tx_id), store ++ [newTransaction p createdAt]) ∧
      (newTransaction p createdAt).status = "success") := by
  constructor
  · intro hfound
    exact processWebhook_duplicate hv hfound
  · intro habsent
    exact ⟨processWebhook_processed hv habsent, rfl⟩

/-- Claim C5 witness. The two branches evaluated on concrete stores. -/
theorem c5_idempotent_ingestion_witness :
    (validatePaymentData ⟨"tx_1", ⟨10050, 2⟩, "USD", "ACC1", "ACC2", none⟩ = none) ∧
    (processWebhook ⟨"tx_1", ⟨10050, 2⟩, "USD", "ACC1", "ACC2", none⟩
        [newTransaction ⟨"tx_1", ⟨10050, 2⟩, "USD", "ACC1", "ACC2", none⟩ 7] [] 9 =
      (.ok (duplicateResponse "tx_1"),
       [newTransaction ⟨"tx_1", ⟨10050, 2⟩, "USD", "ACC1", "ACC2", none⟩ 7])) ∧
    (processWebhook ⟨"tx_1", ⟨10050, 2⟩, "USD", "ACC1", "ACC2", none⟩ [] [] 9 =
      ((.ok (processedResponse "tx_1")),
       [] ++ [newTransaction ⟨"tx_1", ⟨10050, 2⟩, "USD", "ACC1", "ACC2", none⟩ 9]) ∧
     (newTransaction ⟨"tx_1", ⟨10050, 2⟩, "USD", "ACC1", "ACC2", none⟩ 9).status = "success") := by
  refine ⟨by decide, ?_, ?_⟩
  · exact (c5_idempotent_ingestion _ _ 9 (by decide)).1 (by decide)
  · exact (c5_idempotent_ingestion _ _ 9 (by decide)).2 (by decide)

/-- Claim C10. The duplicate decision of `process_webhook` is based solely on
the presence of the `tx_id` in the store: two validated payloads with the
same `tx_id` (and arbitrary other fields) are processed identically when
that `tx_id` is already stored — both are acknowledged as duplicates and the
stored record is left unchanged. -/
theorem c10_duplicate_by_tx_id_only (p q : WebhookPayloadV) (store : List Txn)
    (c1 c2 : Int) (hvp : validatePaymentData p = none)
    (hvq : validatePaymentData q = none) (hid : p.tx_id = q.tx_id)
    (hfound : (findOne p.tx_id store).isSome) :
    processWebhook p store [] c1 = processWebhook q store [] c2 ∧
    processWebhook p store [] c1 = (.ok (duplicateResponse p.tx_id), store) := by
  have hp := @processWebhook_duplicate p store c1 hvp hfound
  have hq := @processWebhook_duplicate q store c2 hvq (hid ▸ hfound)
  refine ⟨?_, hp⟩
  rw [hp, hq, hid]

/-- Claim C10 witness. A resubmission of `tx_1` with different amount,
currency, accounts and description is acknowledged exactly like the
original, leaving the store unchanged. -/
theorem c10_duplicate_by_tx_id_only_witness :
    (validatePaymentData ⟨"tx_1", ⟨10050, 2⟩, "USD", "ACC1", "ACC2", none⟩ = none) ∧
    (validatePaymentData ⟨"tx_1", ⟨999, 0⟩, "EUR", "B1", "B2", some "other"⟩ = none) ∧
    ((findOne "tx_1" [newTransaction ⟨"tx_1", ⟨10050, 2⟩, "USD", "ACC1", "ACC2", none⟩ 7]).isSome) ∧
    (processWebhook ⟨"tx_1", ⟨10050, 2⟩, "USD", "ACC1", "ACC2", none⟩
        [newTransaction ⟨"tx_1", ⟨10050, 2⟩, "USD", "ACC1", "ACC2", none⟩ 7] [] 8 =
      processWebhook ⟨"tx_1", ⟨999, 0⟩, "EUR", "B1", "B2", some "other"⟩
        [newTransaction ⟨"tx_1", ⟨10050, 2⟩, "USD", "ACC1", "ACC2", none⟩ 7] [] 9 ∧
     processWebhook ⟨"tx_1", ⟨10050, 2⟩, "USD", "ACC1", "ACC2", none⟩
        [newTransaction ⟨"tx_1", ⟨10050, 2⟩, "USD", "ACC1", "ACC2", none⟩ 7] [] 8 =
      (.ok (duplicateResponse "tx_1"),
       [newTransaction ⟨"tx_1", ⟨10050, 2⟩, "USD", "ACC1", "ACC2", none⟩ 7])) :=
  ⟨by decide, by decide, by decide,
   c10_duplicate_by_tx_id_only _ _ _ 8 9 (by decide) (by decide) rfl (by decide)⟩

/-- Claim C1 counterexample. When the insert is rejected by the uniqueness
constraint (a concurrent writer inserted the same `tx_id` between the lookup
and the insert), `process_webhook` does **not** resolve like the
lookup-found duplicate path: it raises `IdempotencyError` (HTTP 409 at the
boundary), while the lookup-found path returns the 200 success response with
status `"duplicate"`. -/
theorem c1_insert_race_counterexample :
    (processWebhook ⟨"tx_1", ⟨10050, 2⟩, "USD", "ACC1", "ACC2", none⟩ []
        [newTransaction ⟨"tx_1", ⟨999, 0⟩, "EUR", "B1", "B2", none⟩ 5] 9).1 =
      .error (.idempotency "tx_1") ∧
    (processWebhook ⟨"tx_1", ⟨10050, 2⟩, "USD", "ACC1", "ACC2", none⟩
        [newTransaction ⟨"tx_1", ⟨999, 0⟩, "EUR", "B1", "B2", none⟩ 5] [] 9).1 =
      .ok (duplicateResponse "tx_1") ∧
    (Except.error (.idempotency "tx_1") : Except AppErr PaymentResponse) ≠
      .ok (duplicateResponse "tx_1") := by
  refine ⟨by decide, by decide, ?_⟩
  intro h
  exact Except.noConfusion h

/-- Claim C1, amended. If the lookup finds no record but the insert is
rejected by the `tx_id` uniqueness constraint because a concurrent process
wrote the same `tx_id` in between, `process_webhook` raises
`IdempotencyError` carrying that `tx_id` (surfaced by the boundary as a 409
response), and performs no write itself. -/
theorem c1_insert_race_raises_idempotency (p : WebhookPayloadV)
    (store interposed : List Txn) (createdAt : Int)
    (hv : validatePaymentData p = none) (habsent : findOne p.tx_id store = none)
    (hrace : ∃ u ∈ interposed, u.tx_id = p.tx_id) :
    processWebhook p store interposed createdAt =
      (.error (.idempotency p.tx_id), store ++ interposed) := by
  obtain ⟨u, hu, huid⟩ := hrace
  unfold processWebhook
  rw [hv, habsent,
    @insertTxn_duplicate (newTransaction p createdAt) (store ++ interposed) u
      (List.mem_append_right store hu) huid]

/-- Claim C1 witness. The race path evaluated on a concrete interposed write. -/
theorem c1_insert_race_raises_idempotency_witness :
    (validatePaymentData ⟨"tx_1", ⟨10050, 2⟩, "USD", "ACC1", "ACC2", none⟩ = none) ∧
    (findOne "tx_1" ([] : List Txn) = none) ∧
    (∃ u ∈ [newTransaction ⟨"tx_1", ⟨999, 0⟩, "EUR", "B1", "B2", none⟩ 5],
      u.tx_id = "tx_1") ∧
    (processWebhook ⟨"tx_1", ⟨10050, 2⟩, "USD", "ACC1", "ACC2", none⟩ []
        [newTransaction ⟨"tx_1", ⟨999, 0⟩, "EUR", "B1", "B2", none⟩ 5] 9 =
      (.error (.idempotency "tx_1"),
       [] ++ [newTransaction ⟨"tx_1", ⟨999, 0⟩, "EUR", "B1", "B2", none⟩ 5])) :=
  ⟨by decide, by decide, ⟨_, List.mem_singleton_self _, rfl⟩,
   c1_insert_race_raises_idempotency _ _ _ 9 (by decide) (by decide)
     ⟨_, List.mem_singleton_self _, rfl⟩⟩

/-- Claim C9. `get_transaction_by_id` returns the found record with all stored
fields; absence raises `NotFoundError` (and nothing else does: the
`NotFoundError` outcome characterizes absence); any other store failure is
raised as `DatabaseError` rather than the underlying exception. -/
theorem c9_retrieval_semantics (tx_id : String) (t : Txn) :
    getTransactionById tx_id (.found t) =
      .ok { success := true, message := "Transaction found successfully",
            status := "found", transaction := detailsOf t } ∧
    getTransactionById tx_id .absent = .error (.notFound "Transaction" tx_id) ∧
    getTransactionById tx_id .storeFailure =
      .error (.database "Failed to retrieve transaction" "find_transaction") ∧
    (∀ r, getTransactionById tx_id r = .error (.notFound "Transaction" tx_id) ↔
      r = .absent) := by
  refine ⟨rfl, rfl, rfl, ?_⟩
  intro r
  cases r <;> simp [getTransactionById]

/-- Claim C6, the code evaluated at the failing input. The `to_safe_dict`
renderings of `SecurityError`, `DatabaseError` and `ConfigurationError` are
independent of the internal-only fields, as the claim states — but the
registered exception handlers, which build the actual client-facing HTTP
`detail` bodies, are not: they include `security_context` (as `context`),
`operation` and the `details` strings, so two errors differing only in their
internal-only fields produce different client-facing bodies.  In particular
the internal `webhook_authentication` context appears verbatim in the
handler body. -/
theorem c6_handler_leaks_internal_detail :
    (∀ (m : String) (x y : Option String),
      securityToSafeDict ⟨m, x⟩ = securityToSafeDict ⟨m, y⟩) ∧
    (∀ (m : String) (x y xe ye : Option String),
      databaseToSafeDict ⟨m, x, xe⟩ = databaseToSafeDict ⟨m, y, ye⟩) ∧
    (∀ (m : String) (x y xe ye : Option String),
      configurationToSafeDict ⟨m, x, xe⟩ = configurationToSafeDict ⟨m, y, ye⟩) ∧
    securityHandlerDetail ⟨"Invalid signature", some "webhook_authentication"⟩ ≠
      securityHandlerDetail ⟨"Invalid signature", some "other_context"⟩ ∧
    ("context", some "webhook_authentication") ∈
      securityHandlerDetail ⟨"Invalid signature", some "webhook_authentication"⟩ ∧
    databaseHandlerDetail
        ⟨"Failed to process transaction", some "insert_transaction", none⟩ ≠
      databaseHandlerDetail ⟨"Failed to process transaction", some "other_op", none⟩ ∧
    ("operation", some "insert_transaction") ∈
      databaseHandlerDetail
        ⟨"Failed to process transaction", some "insert_transaction", none⟩ ∧
    configurationHandlerDetail ⟨"cfg", some "HMAC_SECRET_KEY", none⟩ ≠
      configurationHandlerDetail ⟨"cfg", some "OTHER_KEY", none⟩ :=
  ⟨fun _ _ _ => rfl, fun _ _ _ _ _ => rfl, fun _ _ _ _ _ => rfl,
   by decide, by decide, by decide, by decide, by decide⟩

/-- Claim C7, the code evaluated at the failing input. The schema accepts the
amount `1000001.00` (mantissa `100000100`, 2 decimal places): it is positive,
has 2 decimal places and 9 of the allowed 15 digits, while the specified
range `(0, 1_000_000]` rejects it.  The third conjunct characterizes the
accepted set of the source: there is no upper bound on the value, only the
`max_digits=15` bound on the digit count. -/
theorem c7_amount_upper_bound_missing :
    webhookAmountOk ⟨100000100, 2⟩ = true ∧
    specAmountOk ⟨100000100, 2⟩ = false ∧
    (∀ d : PyDecimal, webhookAmountOk d = true ↔
      (0 < d.mant ∧ d.places ≤ 2 ∧ coeffDigits d ≤ 15)) := by
  refine ⟨by decide, by decide, ?_⟩
  intro d
  simp [webhookAmountOk, and_assoc]

/-- Claim C8, the code evaluated at the failing input. `validate_description`
strips only `<`, `>`, `"` and the single quote — not `;` and `&`: on the
input consisting of exactly those six characters the code stores the
two-character string consisting of the semicolon and the ampersand, while the specified
sanitization (and the own test suite of the repository) stores `null`.  The remaining
conjuncts record the parts of the claim the code does satisfy: a stripped-empty
result stores `null` and a missing description stays `null`. -/
theorem c8_sanitization_misses_two_chars :
    validateDescription (some (String.mk [Char.ofNat 60, Char.ofNat 62,
        Char.ofNat 34, Char.ofNat 39, Char.ofNat 59, Char.ofNat 38])) =
      some (String.mk [Char.ofNat 59, Char.ofNat 38]) ∧
    specSanitizeDescription (some (String.mk [Char.ofNat 60, Char.ofNat 62,
        Char.ofNat 34, Char.ofNat 39, Char.ofNat 59, Char.ofNat 38])) = none ∧
    validateDescription (some (String.mk [Char.ofNat 60, Char.ofNat 62])) = none ∧
    validateDescription none = none := by
  refine ⟨by decide, by decide, by decide, rfl⟩

/-! ## Helper lemmas: strings, hex digests, signature normalization -/

theorem tagged_ne_empty (d : String) : "sha256=" ++ d ≠ "" := by
  intro h
  have h2 := congrArg String.length h
  rw [String.length_append] at h2
  have h7 : "sha256=".length = 7 := rfl
  have h0 : "".length = 0 := rfl
  omega

theorem normalizeSignature_tagged (d : String) :
    normalizeSignature ("sha256=" ++ d) = d := by
  unfold normalizeSignature
  have hdata : ("sha256=" ++ d).data = "sha256=".data ++ d.data := String.data_append _ _
  have h7 : "sha256=".data.length = 7 := rfl
  rw [hdata, if_pos (List.take_left' h7), List.drop_left' h7]

theorem hexChar_ne_s (n : Nat) (h : n < 16) : hexChar n ≠ 's' := by
  interval_cases n <;> decide

theorem bytesToHex_not_tagged (l : List Nat) (hb : ∀ b ∈ l, b < 256) :
    ¬ ((bytesToHex l).data.take 7 = "sha256=".data) := by
  intro h
  cases l with
  | nil => exact absurd h (by decide)
  | cons b bs =>
    have h1 : ((bytesToHex (b :: bs)).data.take 7).headD 'x' =
        ("sha256=".data).headD 'x' := by rw [h]
    have h2 : ((bytesToHex (b :: bs)).data.take 7).headD 'x' = hexChar (b / 16) := rfl
    have h3 : ("sha256=".data).headD 'x' = 's' := rfl
    have hdiv : b / 16 < 16 := by
      have := hb b (List.mem_cons_self b bs)
      omega
    exact hexChar_ne_s (b / 16) hdiv (h2 ▸ h3 ▸ h1)

theorem normalizeSignature_hex (l : List Nat) (hb : ∀ b ∈ l, b < 256) :
    normalizeSignature (bytesToHex l) = bytesToHex l := by
  unfold normalizeSignature
  rw [if_neg (bytesToHex_not_tagged l hb)]

theorem wordBytes_lt (w : Nat) : ∀ x ∈ wordBytes w, x < 256 := by
  intro x hx
  simp [wordBytes] at hx
  rcases hx with h | h | h | h <;> omega

theorem digestBytes_lt (st : ShaState) : ∀ x ∈ digestBytes st, x < 256 := by
  obtain ⟨a, b, c, d, e, f, g, h⟩ := st
  intro x hx
  simp only [digestBytes, List.mem_flatMap] at hx
  obtain ⟨w, _, hw⟩ := hx
  exact wordBytes_lt w x hw

theorem digestBytes_length (st : ShaState) : (digestBytes st).length = 32 := by
  obtain ⟨a, b, c, d, e, f, g, h⟩ := st
  simp [digestBytes, wordBytes]

theorem sha256_lt (msg : List Nat) : ∀ x ∈ sha256 msg, x < 256 := by
  unfold sha256
  exact digestBytes_lt _

theorem sha256_length (msg : List Nat) : (sha256 msg).length = 32 := by
  unfold sha256
  exact digestBytes_length _

theorem hmacSha256_lt (key msg : List Nat) : ∀ x ∈ hmacSha256 key msg, x < 256 := by
  unfold hmacSha256
  exact sha256_lt _

theorem hmacSha256_length (key msg : List Nat) : (hmacSha256 key msg).length = 32 := by
  unfold hmacSha256
  exact sha256_length _

theorem expectedSignature_bytes_lt (secretKey ts : String) (body : List Nat) :
    ∀ x ∈ hmacSha256 (strBytes secretKey) (strBytes (ts ++ ".") ++ body), x < 256 :=
  hmacSha256_lt _ _

/-! ## Helper lemmas: verification outcomes -/

theorem verify_future {secretKey ts sig : String} {body : List Nat}
    {now maxAge t : Int} (h1 : secretKey ≠ "") (h2 : sig ≠ "") (h3 : ts ≠ "")
    (h4 : parsePyInt ts = some t) (hfut : now + 5 < t) :
    verifyHmacSignature (some secretKey) (some sig) (some ts) body now maxAge =
      .error ⟨"Request timestamp is in the future", some "webhook_authentication"⟩ := by
  simp only [verifyHmacSignature, if_neg h1, if_neg h2, if_neg h3, h4]
  rw [if_pos hfut]

theorem verify_expired {secretKey ts sig : String} {body : List Nat}
    {now maxAge t : Int} (h1 : secretKey ≠ "") (h2 : sig ≠ "") (h3 : ts ≠ "")
    (h4 : parsePyInt ts = some t) (h5 : t ≤ now + 5) (hexp : maxAge < now - t) :
    verifyHmacSignature (some secretKey) (some sig) (some ts) body now maxAge =
      .error ⟨"Request timestamp expired", some "webhook_authentication"⟩ := by
  simp only [verifyHmacSignature, if_neg h1, if_neg h2, if_neg h3, h4]
  rw [if_neg (not_lt.mpr h5), if_pos hexp]

theorem verify_fresh_eq {secretKey ts sig : String} {body : List Nat}
    {now maxAge t : Int} (h1 : secretKey ≠ "") (h2 : sig ≠ "") (h3 : ts ≠ "")
    (h4 : parsePyInt ts = some t) (h5 : t ≤ now + 5) (h6 : now - t ≤ maxAge) :
    verifyHmacSignature (some secretKey) (some sig) (some ts) body now maxAge =
      (if expectedSignature secretKey ts body = normalizeSignature sig then .ok ()
       else .error ⟨"Invalid signature", some "webhook_authentication"⟩) := by
  simp only [verifyHmacSignature, if_neg h1, if_neg h2, if_neg h3, h4]
  rw [if_neg (not_lt.mpr h5), if_neg (not_lt.mpr h6)]

theorem verify_ok_iff {secretKey ts sig : String} {body : List Nat}
    {now maxAge t : Int} (h1 : secretKey ≠ "") (h2 : sig ≠ "") (h3 : ts ≠ "")
    (h4 : parsePyInt ts = some t) (h5 : t ≤ now + 5) (h6 : now - t ≤ maxAge) :
    (verifyHmacSignature (some secretKey) (some sig) (some ts) body now maxAge =
        .ok () ↔
      normalizeSignature sig = expectedSignature secretKey ts body) := by
  rw [verify_fresh_eq h1 h2 h3 h4 h5 h6]
  by_cases hc : expectedSignature secretKey ts body = normalizeSignature sig
  · rw [if_pos hc]
    exact iff_of_true rfl hc.symm
  · rw [if_neg hc]
    exact iff_of_false (fun h => Except.noConfusion h) (fun h => hc h.symm)

theorem verify_invalid {secretKey ts sig : String} {body : List Nat}
    {now maxAge t : Int} (h1 : secretKey ≠ "") (h2 : sig ≠ "") (h3 : ts ≠ "")
    (h4 : parsePyInt ts = some t) (h5 : t ≤ now + 5) (h6 : now - t ≤ maxAge)
    (hmis : expectedSignature secretKey ts body ≠ normalizeSignature sig) :
    verifyHmacSignature (some secretKey) (some sig) (some ts) body now maxAge =
      .error ⟨"Invalid signature", some "webhook_authentication"⟩ := by
  rw [verify_fresh_eq h1 h2 h3 h4 h5 h6, if_neg hmis]

/-- Claim C4. With no HMAC secret configured (environment variable unset, or
set to the empty string — both falsy), every request is rejected with
`SecurityError("Webhook verification not configured")`, whatever the
headers, body, time and replay window are. -/
theorem c4_fail_closed_without_secret (xSig xTs : Option String) (body : List Nat)
    (now maxAge : Int) :
    verifyHmacSignature none xSig xTs body now maxAge =
      .error ⟨"Webhook verification not configured", some "webhook_authentication"⟩ ∧
    verifyHmacSignature (some "") xSig xTs body now maxAge =
      .error ⟨"Webhook verification not configured", some "webhook_authentication"⟩ := by
  constructor
  · rfl
  · simp [verifyHmacSignature]

/-- Claim C3. With a configured secret and both headers present, a request
whose integer timestamp `t` satisfies `t > now + 5` is rejected as
future-dated and one with `now - t > maxAge` is rejected as expired; any
timestamp passing both freshness checks is accepted given a correct
signature (`MAX_WEBHOOK_AGE_SECONDS` defaults to 300).  The boundary cases
`t = now - (maxAge + 1)` / `t = now + 6` (rejected) and
`t = now - (maxAge - 1)` / `t = now + 4` (accepted with a correct signature)
are instances. -/
theorem c3_replay_window (secretKey ts sig : String) (body : List Nat)
    (now maxAge t : Int) (h1 : secretKey ≠ "") (h2 : sig ≠ "") (h3 : ts ≠ "")
    (h4 : parsePyInt ts = some t) :
    (now + 5 < t →
      verifyHmacSignature (some secretKey) (some sig) (some ts) body now maxAge =
        .error ⟨"Request timestamp is in the future", some "webhook_authentication"⟩) ∧
    (t ≤ now + 5 → maxAge < now - t →
      verifyHmacSignature (some secretKey) (some sig) (some ts) body now maxAge =
        .error ⟨"Request timestamp expired", some "webhook_authentication"⟩) ∧
    (t ≤ now + 5 → now - t ≤ maxAge →
      normalizeSignature sig = expectedSignature secretKey ts body →
      verifyHmacSignature (some secretKey) (some sig) (some ts) body now maxAge =
        .ok ()) := by
  refine ⟨fun hfut => verify_future h1 h2 h3 h4 hfut,
    fun h5 hexp => verify_expired h1 h2 h3 h4 h5 hexp,
    fun h5 h6 hsig => ?_⟩
  exact (verify_ok_iff h1 h2 h3 h4 h5 h6).mpr hsig

/-- Claim C3 witness. With `now = 1000` and `maxAge = 300`: timestamp `1006`
(`now + 6`) is rejected as future-dated, `699` (`now - (maxAge + 1)`) as
expired, while `701` (`now - (maxAge - 1)`) and `1004` (`now + 4`) are
accepted given the correct (prefix-tagged) signature. -/
theorem c3_replay_window_witness :
    (verifyHmacSignature (some "k") (some "sig") (some "1006") [] 1000 300 =
      .error ⟨"Request timestamp is in the future", some "webhook_authentication"⟩) ∧
    (verifyHmacSignature (some "k") (some "sig") (some "699") [] 1000 300 =
      .error ⟨"Request timestamp expired", some "webhook_authentication"⟩) ∧
    (verifyHmacSignature (some "k")
        (some ("sha256=" ++ expectedSignature "k" "701" [])) (some "701") [] 1000 300 =
      .ok ()) ∧
    (verifyHmacSignature (some "k")
        (some ("sha256=" ++ expectedSignature "k" "1004" [])) (some "1004") [] 1000 300 =
      .ok ()) := by
  refine ⟨?_, ?_, ?_, ?_⟩
  · exact (c3_replay_window "k" "1006" "sig" [] 1000 300 1006 (by decide) (by decide)
      (by decide) (by decide)).1 (by decide)
  · exact (c3_replay_window "k" "699" "sig" [] 1000 300 699 (by decide) (by decide)
      (by decide) (by decide)).2.1 (by decide) (by decide)
  · exact (c3_replay_window "k" "701" ("sha256=" ++ expectedSignature "k" "701" []) []
      1000 300 701 (by decide) (tagged_ne_empty _) (by decide) (by decide)).2.2
      (by decide) (by decide) (normalizeSignature_tagged _)
  · exact (c3_replay_window "k" "1004" ("sha256=" ++ expectedSignature "k" "1004" []) []
      1000 300 1004 (by decide) (tagged_ne_empty _) (by decide) (by decide)).2.2
      (by decide) (by decide) (normalizeSignature_tagged _)

theorem hexChars_length (l : List Nat) : (hexChars l).length = 2 * l.length := by
  induction l with
  | nil => rfl
  | cons b bs ih => simp [hexChars] at ih ⊢; omega

theorem bytesToHex_ne_empty {l : List Nat} (h : l ≠ []) : bytesToHex l ≠ "" := by
  intro hc
  have h2 := congrArg String.length hc
  have h3 : (bytesToHex l).length = (hexChars l).length := rfl
  rw [h3, hexChars_length] at h2
  have h0 : "".length = 0 := rfl
  rw [h0] at h2
  cases l with
  | nil => exact h rfl
  | cons b bs => simp at h2

/-- Claim C2, amended. Under a configured secret, both headers present and a
fresh integer timestamp, verification succeeds iff the provided signature,
after stripping an optional `sha256=` prefix, equals the lowercase hex
digest of HMAC-SHA256 over `timestamp + "." + raw_body`; consequently a
signature valid for body `b1` is rejected with
`SecurityError("Invalid signature")` when presented with any body `b2` whose
HMAC digest differs from the digest of `b1` (every byte-distinct body
except an HMAC collision). -/
theorem c2_signature_binding :
    (∀ (secretKey ts sig : String) (body : List Nat) (now maxAge t : Int),
      secretKey ≠ "" → sig ≠ "" → ts ≠ "" → parsePyInt ts = some t →
      t ≤ now + 5 → now - t ≤ maxAge →
      (verifyHmacSignature (some secretKey) (some sig) (some ts) body now maxAge =
          .ok () ↔
        normalizeSignature sig = expectedSignature secretKey ts body)) ∧
    (∀ (secretKey ts sig : String) (b1 b2 : List Nat) (now maxAge t : Int),
      secretKey ≠ "" → sig ≠ "" → ts ≠ "" → parsePyInt ts = some t →
      t ≤ now + 5 → now - t ≤ maxAge →
      expectedSignature secretKey ts b1 ≠ expectedSignature secretKey ts b2 →
      verifyHmacSignature (some secretKey) (some sig) (some ts) b1 now maxAge =
        .ok () →
      verifyHmacSignature (some secretKey) (some sig) (some ts) b2 now maxAge =
        .error ⟨"Invalid signature", some "webhook_authentication"⟩) := by
  constructor
  · intro secretKey ts sig body now maxAge t h1 h2 h3 h4 h5 h6
    exact verify_ok_iff h1 h2 h3 h4 h5 h6
  · intro secretKey ts sig b1 b2 now maxAge t h1 h2 h3 h4 h5 h6 hne hok
    have hv1 := (verify_ok_iff h1 h2 h3 h4 h5 h6).mp hok
    refine verify_invalid h1 h2 h3 h4 h5 h6 ?_
    intro hmis
    exact hne (hv1.symm.trans hmis.symm)

/-- Claim C2 witness. The characterization applied at a concrete request. -/
theorem c2_signature_binding_witness :
    ("k" ≠ "") ∧ ("x" ≠ "") ∧ ("0" ≠ "") ∧ (parsePyInt "0" = some 0) ∧
    ((0 : Int) ≤ 0 + 5) ∧ ((0 : Int) - 0 ≤ 300) ∧
    (verifyHmacSignature (some "k") (some "x") (some "0") [] 0 300 = .ok () ↔
      normalizeSignature "x" = expectedSignature "k" "0" []) :=
  ⟨by decide, by decide, by decide, by decide, by decide, by decide,
   c2_signature_binding.1 "k" "0" "x" [] 0 300 0 (by decide) (by decide) (by decide)
     (by decide) (by decide) (by decide)⟩

theorem length32_pigeonhole (g : ℕ → List Nat) (hlen : ∀ n, (g n).length = 32)
    (hlt : ∀ n, ∀ x ∈ g n, x < 256) : ∃ n m, n ≠ m ∧ g n = g m := by
  let F : ℕ → (Fin 32 → Fin 256) := fun n i =>
    ⟨(g n).getD i 0, by
      have hi : (i : ℕ) < (g n).length := by rw [hlen n]; exact i.isLt
      rw [List.getD_eq_getElem _ _ hi]
      exact hlt n _ (List.getElem_mem hi)⟩
  obtain ⟨n, m, hnm, hFeq⟩ := Finite.exists_ne_map_eq_of_infinite F
  refine ⟨n, m, hnm, ?_⟩
  apply List.ext_getElem (by rw [hlen n, hlen m])
  intro i h1 h2
  have h1x : i < 32 := by rw [hlen n] at h1; exact h1
  have hval : (g n).getD i 0 = (g m).getD i 0 :=
    congrArg Fin.val (congrFun hFeq ⟨i, h1x⟩)
  rw [List.getD_eq_getElem _ _ h1, List.getD_eq_getElem _ _ h2] at hval
  exact hval

/-- Claim C2 counterexample. The universally quantified consequence in the claim —
*every* byte-distinct body is rejected under a signature valid for another
body — is false for the code: the digest space is finite while bodies are
unbounded, so two distinct byte strings share an HMAC-SHA256 digest
(pigeonhole), and the signature valid for the one is accepted with the
other. -/
theorem c2_binding_counterexample :
    ¬ (∀ (b1 b2 : List Nat), (∀ x ∈ b1, x < 256) → (∀ x ∈ b2, x < 256) →
        b1 ≠ b2 → ∀ sig : String,
        verifyHmacSignature (some "k") (some sig) (some "0") b1 0 300 = .ok () →
        ∃ e : SecurityE,
          verifyHmacSignature (some "k") (some sig) (some "0") b2 0 300 =
            .error e) := by
  intro H
  obtain ⟨n, m, hnm, hfeq⟩ := length32_pigeonhole
    (fun n => hmacSha256 (strBytes "k") (strBytes ("0" ++ ".") ++ List.replicate n 0))
    (fun n => hmacSha256_length _ _) (fun n => hmacSha256_lt _ _)
  have hfeq2 : hmacSha256 (strBytes "k") (strBytes ("0" ++ ".") ++ List.replicate n 0)
      = hmacSha256 (strBytes "k") (strBytes ("0" ++ ".") ++ List.replicate m 0) := hfeq
  have hlt1 := hmacSha256_lt (strBytes "k") (strBytes ("0" ++ ".") ++ List.replicate n 0)
  have hlen1 := hmacSha256_length (strBytes "k") (strBytes ("0" ++ ".") ++ List.replicate n 0)
  have hb12 : List.replicate n (0 : Nat) ≠ List.replicate m 0 := by
    intro h
    apply hnm
    have := congrArg List.length h
    simpa using this
  have hbytes1 : ∀ x ∈ List.replicate n (0 : Nat), x < 256 := by
    intro x hx
    have := List.eq_of_mem_replicate hx
    omega
  have hbytes2 : ∀ x ∈ List.replicate m (0 : Nat), x < 256 := by
    intro x hx
    have := List.eq_of_mem_replicate hx
    omega
  have hsig_ne : bytesToHex
      (hmacSha256 (strBytes "k") (strBytes ("0" ++ ".") ++ List.replicate n 0)) ≠ "" := by
    apply bytesToHex_ne_empty
    intro hnil
    rw [hnil] at hlen1
    simp at hlen1
  have hnorm := normalizeSignature_hex _ hlt1
  have hexp1 : expectedSignature "k" "0" (List.replicate n 0) =
      bytesToHex (hmacSha256 (strBytes "k")
        (strBytes ("0" ++ ".") ++ List.replicate n 0)) := rfl
  have hexp2 : expectedSignature "k" "0" (List.replicate m 0) =
      bytesToHex (hmacSha256 (strBytes "k")
        (strBytes ("0" ++ ".") ++ List.replicate m 0)) := rfl
  have hok1 : verifyHmacSignature (some "k")
      (some (bytesToHex (hmacSha256 (strBytes "k")
        (strBytes ("0" ++ ".") ++ List.replicate n 0)))) (some "0")
      (List.replicate n 0) 0 300 = .ok () := by
    refine (@verify_ok_iff "k" "0"
      (bytesToHex (hmacSha256 (strBytes "k")
        (strBytes ("0" ++ ".") ++ List.replicate n 0)))
      (List.replicate n 0) 0 300 0 (by decide) hsig_ne (by decide) (by decide)
      (by decide) (by decide)).mpr ?_
    rw [hnorm, hexp1]
  have hok2 : verifyHmacSignature (some "k")
      (some (bytesToHex (hmacSha256 (strBytes "k")
        (strBytes ("0" ++ ".") ++ List.replicate n 0)))) (some "0")
      (List.replicate m 0) 0 300 = .ok () := by
    refine (@verify_ok_iff "k" "0"
      (bytesToHex (hmacSha256 (strBytes "k")
        (strBytes ("0" ++ ".") ++ List.replicate n 0)))
      (List.replicate m 0) 0 300 0 (by decide) hsig_ne (by decide) (by decide)
      (by decide) (by decide)).mpr ?_
    rw [hnorm, hexp2, hfeq2]
  obtain ⟨e, he⟩ := H (List.replicate n 0) (List.replicate m 0) hbytes1 hbytes2
    hb12 _ hok1
  rw [hok2] at he
  exact Except.noConfusion he
